import Mathlib

/-!
Shallow embedding of the `matchmake-client` TypeScript library
(`src/matchmake-client.ts`, types in `src/types.ts`).

The client is a facade over a Phoenix socket: it owns an app channel and an
optional lobby channel, caches a session token and the current lobby
snapshot, and re-emits server pushes as local events.  Each public async
operation is modelled as a pure function from the client state and the
server acknowledgement to the new state, the list of locally emitted
events, the list of outbound network requests issued, and the
resolved/rejected result.
-/

namespace Matchmake

/-- `lobby_type` field of `MatchmakingConfig` (src/types.ts). -/
inductive LobbyType
  | auto_match
  | player_created
deriving DecidableEq, Repr

/-- `MatchmakingConfig` interface (src/types.ts). -/
structure MatchmakingConfig where
  id : Nat
  name : String
  max_players : Nat
  lobby_type : LobbyType
deriving DecidableEq, Repr

/-- `Player` interface (src/types.ts). -/
structure Player where
  id : Nat
  slug : String
  joined_at : String
deriving DecidableEq, Repr

/-- `status` field of `Lobby` (src/types.ts): a closed union of six strings. -/
inductive LobbyStatus
  | pending
  | open_
  | full
  | cancelled
  | started
  | finished
deriving DecidableEq, Repr

/-- `host_type` values `'p2p' | 'dedicated'` (src/types.ts). -/
inductive HostType
  | p2p
  | dedicated
deriving DecidableEq, Repr

/-- `Lobby` interface (src/types.ts).  The three `host_*` fields are optional
in TypeScript (`?`), hence `Option` here; `metadata : Record<string, unknown>`
is modelled as a key-value list with opaque values rendered as strings. -/
structure Lobby where
  id : Nat
  name : String
  status : LobbyStatus
  max_players : Nat
  host_type : Option HostType
  host_address : Option String
  host_port : Option Nat
  metadata : List (String × String)
  players : List Player
  created_at : String
deriving DecidableEq, Repr

/-- `ConnectOptions` interface (src/types.ts). -/
structure ConnectOptions where
  playerSlug : String
  ipAddress : String
deriving DecidableEq, Repr

/-- `HostInfo` interface (src/types.ts). -/
structure HostInfo where
  type : HostType
  address : String
  port : Nat
deriving DecidableEq, Repr

/-- `ClientOptions` interface (src/types.ts): both fields optional. -/
structure ClientOptions where
  apiToken : Option String
  debug : Option Bool
deriving DecidableEq, Repr

/-- `ConnectResponse` internal interface (src/types.ts). -/
structure ConnectResponse where
  active_configs : List MatchmakingConfig
  session_token : String
deriving DecidableEq, Repr

/-- `LobbyResponse` internal interface (src/types.ts). -/
structure LobbyResponse where
  lobby : Lobby
deriving DecidableEq, Repr

/-- The error values a public operation can reject with.  `matchmake`,
`connection` and `lobby` are the `MatchmakeError` / `ConnectionError` /
`LobbyError` classes of the source; `typeError` models an untyped JavaScript
runtime `TypeError` (e.g. reading a property of `undefined`), which is not a
`MatchmakeError`. -/
inductive ClientError
  | matchmake (message : String)
  | connection (message : String)
  | lobby (message : String)
  | typeError (message : String)
deriving DecidableEq, Repr

/-- `e instanceof MatchmakeError`: true for the three typed classes, false
for a raw runtime `TypeError`. -/
def ClientError.isMatchmakeError : ClientError → Bool
  | .typeError _ => false
  | _ => true

/-- `e instanceof ConnectionError`. -/
def ClientError.isConnectionError : ClientError → Bool
  | .connection _ => true
  | _ => false

/-- `e instanceof LobbyError`. -/
def ClientError.isLobbyError : ClientError → Bool
  | .lobby _ => true
  | _ => false

/-- The descriptor payload of a `hostChanged` event:
`{ type: lobby.host_type, address: lobby.host_address, port: lobby.host_port }`
(all three possibly `undefined`). -/
structure HostDescriptor where
  type : Option HostType
  address : Option String
  port : Option Nat
deriving DecidableEq, Repr

/-- The local events emitted through the `EventEmitter`
(`this.emit(name, ...)` calls in src/matchmake-client.ts). -/
inductive Event
  | connected (configs : List MatchmakingConfig)
  | lobbyFound (lobby : Lobby)
  | lobbyJoined (lobby : Lobby)
  | hostInfoSet (info : HostInfo)
  | lobbyLeft (lobbyId : Nat)
  | playerJoined (player : Player) (lobby : Lobby)
  | playerLeft (player : Player) (lobby : Lobby)
  | statusChanged (status : LobbyStatus) (lobby : Lobby)
  | hostChanged (host : HostDescriptor) (lobby : Lobby)
  | lobbyUpdate (lobby : Lobby)
  | error (e : ClientError)
  | socketError (e : ClientError)
  | socketClosed
  | disconnected
deriving DecidableEq, Repr

/-- Outbound network requests: the `join` of a channel or a `push` on it. -/
inductive Request
  | joinApp (player_slug ip_address : String)
  | findLobbyPush (config_id : Nat)
  | joinLobby (lobbyId : Nat) (session_token : String)
  | setHost (host_type : HostType) (host_address : String) (host_port : Nat)
      (session_token : String)
  | leave (lobby_id : Nat) (session_token : String)
deriving DecidableEq, Repr

/-- A server acknowledgement for one request: `receive("ok", resp)` or
`receive("error", err)`, where `err.reason` may be absent. -/
inductive Ack (α : Type)
  | ok (resp : α)
  | error (reason : Option String)
deriving DecidableEq, Repr

/-- `err.reason || 'Unknown error'` — JavaScript `||` treats the absent field
and the empty string as falsy. -/
def reasonOr (reason : Option String) : String :=
  match reason with
  | none => "Unknown error"
  | some s => if s = "" then "Unknown error" else s

/-- The private mutable fields of `MatchmakeClient`.  `appChannel` stores the
join payload of the `"app:auth"` channel once `connect` has created it
(`none` models the declared-but-never-assigned `appChannel!`);
`lobbyChannel` stores the lobby id in the `lobby:<id>` topic. -/
structure ClientState where
  appChannel : Option (String × String)
  lobbyChannel : Option Nat
  sessionToken : Option String
  debugEnabled : Bool
  currentLobby : Option Lobby
deriving DecidableEq, Repr

/-- `onLobbyUpdate` (src/matchmake-client.ts lines 315-356): diff the cached
snapshot against the pushed one, emitting `playerJoined` for each player of
`lobby.players` whose id is not in the old id set (a `forEach` in next-order),
then `playerLeft` for each cached player whose id is not in the new id set
(in previous-order), then `statusChanged` on status inequality, then
`hostChanged` when any of `host_address`, `host_port`, `host_type` differ;
finally cache `lobby` and emit `lobbyUpdate`. -/
def onLobbyUpdate (s : ClientState) (lobby : Lobby) : ClientState × List Event :=
  let events : List Event :=
    match s.currentLobby with
    | none => []
    | some cur =>
      let oldPlayerIds := cur.players.map Player.id
      let newPlayerIds := lobby.players.map Player.id
      let evs1 := lobby.players.foldl (fun acc player =>
        if oldPlayerIds.contains player.id then acc
        else acc ++ [Event.playerJoined player lobby]) []
      let evs2 := cur.players.foldl (fun acc player =>
        if newPlayerIds.contains player.id then acc
        else acc ++ [Event.playerLeft player lobby]) evs1
      let evs3 :=
        if lobby.status ≠ cur.status then
          evs2 ++ [Event.statusChanged lobby.status lobby]
        else evs2
      let evs4 :=
        if lobby.host_address ≠ cur.host_address ∨
            lobby.host_port ≠ cur.host_port ∨
            lobby.host_type ≠ cur.host_type then
          evs3 ++ [Event.hostChanged
            ⟨lobby.host_type, lobby.host_address, lobby.host_port⟩ lobby]
        else evs3
      evs4
  ({ s with currentLobby := some lobby }, events ++ [Event.lobbyUpdate lobby])

/-- The observable outcome of one public async operation: the client state
after it settles, the locally emitted events in order, the outbound network
requests issued, and the value the returned promise resolves or rejects
with. -/
structure OpResult (α : Type) where
  state : ClientState
  events : List Event
  requests : List Request
  result : Except ClientError α
deriving Repr

/-- A guard `throw` before an operation's try block: the returned promise
rejects with the error and nothing else happens — no event emitted, no
request issued, no state change. -/
def guardThrow {α : Type} (s : ClientState) (e : ClientError) : OpResult α :=
  { state := s, events := [], requests := [], result := Except.error e }

/-- JavaScript truthiness of the cached `sessionToken`:
`!this.sessionToken` is true both when the field was never assigned and
when it holds the (falsy) empty string. -/
def tokenTruthy : Option String → Bool
  | none => false
  | some t => !(t == "")

/-- The hard-coded fallback of the constructor (src/matchmake-client.ts
line 53). -/
def defaultApiToken : String := "of0FnIPtpGEtIfEMliuEawiMkGYoLImS1csN9dHYZA0="

/-- `options.apiToken || "of0F..."`: JavaScript `||` falls back both when the
option is absent and when it is the (falsy) empty string. -/
def resolveApiToken (apiToken : Option String) : String :=
  match apiToken with
  | none => defaultApiToken
  | some t => if t = "" then defaultApiToken else t

/-- How the bearer credential reaches the server: a `x-authorization` header
in the Node variant, a `token` query parameter in the browser variant. -/
inductive TransportAuth
  | header (value : String)
  | queryParam (token : String)
deriving DecidableEq, Repr

/-- The credential the constructor attaches to the socket
(src/matchmake-client.ts lines 56-78): in Node a custom WebSocket sending
`x-authorization: Bearer <apiToken>`; in the browser `params: { token }`. -/
def connectionAuth (isBrowser : Bool) (options : ClientOptions) : TransportAuth :=
  let apiToken := resolveApiToken options.apiToken
  if isBrowser then TransportAuth.queryParam apiToken
  else TransportAuth.header ("Bearer " ++ apiToken)

/-- The field initialisation done by the constructor: no channels, no token,
no cached lobby, `debugEnabled = options.debug || false`. -/
def initialState (options : ClientOptions) : ClientState :=
  { appChannel := none
    lobbyChannel := none
    sessionToken := none
    debugEnabled := options.debug.getD false
    currentLobby := none }

/-- `setDebug` (lines 90-93): sets the flag, returns `this`. -/
def setDebug (s : ClientState) (enabled : Bool) : ClientState :=
  { s with debugEnabled := enabled }

/-- `getCurrentLobby` (lines 307-309). -/
def getCurrentLobby (s : ClientState) : Option Lobby :=
  s.currentLobby

/-- `connect` (lines 100-131): create the `"app:auth"` channel (assigned to
`this.appChannel` before the join settles, on either outcome), join it; on
`ok` store the session token, emit `connected` and resolve with the configs;
on `error` build a `ConnectionError` from the reason, emit `error` and
reject. -/
def connect (s : ClientState) (options : ConnectOptions)
    (ack : Ack ConnectResponse) : OpResult (List MatchmakingConfig) :=
  let s1 := { s with appChannel := some (options.playerSlug, options.ipAddress) }
  let req := [Request.joinApp options.playerSlug options.ipAddress]
  match ack with
  | .ok resp =>
    { state := { s1 with sessionToken := some resp.session_token }
      events := [Event.connected resp.active_configs]
      requests := req
      result := Except.ok resp.active_configs }
  | .error reason =>
    let e := ClientError.connection
      ("Failed to join app channel: " ++ reasonOr reason)
    { state := s1, events := [Event.error e], requests := req
      result := Except.error e }

/-- `findLobby` (lines 138-157): push `find_lobby` on the app channel; on
`ok` emit `lobbyFound` and resolve with the lobby; on `error` emit `error`
with a `LobbyError` and reject.  If `connect` never assigned
`this.appChannel`, the `push` inside the promise executor throws a raw
`TypeError`; the executor throw rejects the promise, so the `catch` block
still emits `error` with that untyped value and rethrows — and no request
goes out. -/
def findLobby (s : ClientState) (configId : Nat)
    (ack : Ack LobbyResponse) : OpResult Lobby :=
  match s.appChannel with
  | none =>
    let e := ClientError.typeError
      "Cannot read properties of undefined (reading 'push')"
    { state := s, events := [Event.error e], requests := []
      result := Except.error e }
  | some _ =>
    match ack with
    | .ok resp =>
      { state := s, events := [Event.lobbyFound resp.lobby]
        requests := [Request.findLobbyPush configId]
        result := Except.ok resp.lobby }
    | .error reason =>
      let e := ClientError.lobby ("Failed to find lobby: " ++ reasonOr reason)
      { state := s, events := [Event.error e]
        requests := [Request.findLobbyPush configId]
        result := Except.error e }

/-- `joinLobby` (lines 164-197): guard `!this.sessionToken` throws a
`ConnectionError` before the try block (so no `error` event, no request,
no state change) — in JavaScript both the unassigned token and the empty
string are falsy; otherwise create the `lobby:<id>` channel and join it; on
`ok` cache the acknowledgement's lobby, emit `lobbyJoined` and resolve with
it; on `error` null the lobby channel, emit `error` and reject. -/
def joinLobby (s : ClientState) (lobby : Lobby)
    (ack : Ack LobbyResponse) : OpResult Lobby :=
  match s.sessionToken with
  | none => guardThrow s (ClientError.connection "Not connected")
  | some token =>
    if token = "" then guardThrow s (ClientError.connection "Not connected")
    else
      let s1 := { s with lobbyChannel := some lobby.id }
      let req := [Request.joinLobby lobby.id token]
      match ack with
      | .ok resp =>
        { state := { s1 with currentLobby := some resp.lobby }
          events := [Event.lobbyJoined resp.lobby]
          requests := req
          result := Except.ok resp.lobby }
      | .error reason =>
        let e := ClientError.lobby
          ("Failed to join lobby: " ++ reasonOr reason)
        { state := { s1 with lobbyChannel := none }
          events := [Event.error e]
          requests := req
          result := Except.error e }

/-- `findAndJoinLobby` (lines 204-207): `findLobby` then `joinLobby` on its
result; a find failure short-circuits. -/
def findAndJoinLobby (s : ClientState) (configId : Nat)
    (findAck : Ack LobbyResponse) (joinAck : Ack LobbyResponse) :
    OpResult Lobby :=
  let r1 := findLobby s configId findAck
  match r1.result with
  | .error e =>
    { state := r1.state, events := r1.events, requests := r1.requests
      result := Except.error e }
  | .ok lobby =>
    let r2 := joinLobby r1.state lobby joinAck
    { state := r2.state
      events := r1.events ++ r2.events
      requests := r1.requests ++ r2.requests
      result := r2.result }

/-- `setHostInfo` (lines 214-243): guard `!this.lobbyChannel` throws a
`LobbyError "Not in a lobby"`, then `!this.sessionToken` throws a
`ConnectionError "Not connected"` — both before the try block, hence with no
`error` event, no request and no state change, and the token guard also
fires on the falsy empty string; otherwise push `set_host`;
`ok` emits `hostInfoSet`, `error` emits `error` with a `LobbyError`. -/
def setHostInfo (s : ClientState) (hostInfo : HostInfo)
    (ack : Ack Unit) : OpResult Unit :=
  match s.lobbyChannel with
  | none => guardThrow s (ClientError.lobby "Not in a lobby")
  | some _ =>
    match s.sessionToken with
    | none => guardThrow s (ClientError.connection "Not connected")
    | some token =>
      if token = "" then
        guardThrow s (ClientError.connection "Not connected")
      else
        let req := [Request.setHost hostInfo.type hostInfo.address
          hostInfo.port token]
        match ack with
        | .ok _ =>
          { state := s, events := [Event.hostInfoSet hostInfo]
            requests := req
            result := Except.ok () }
        | .error reason =>
          let e := ClientError.lobby
            ("Failed to set host info: " ++ reasonOr reason)
          { state := s, events := [Event.error e], requests := req
            result := Except.error e }

/-- `leaveLobby` (lines 249-281): guard
`!this.lobbyChannel || !this.sessionToken || !this.currentLobby` throws a
`LobbyError "Not in a lobby"` before the try block — the token disjunct is
also true on the falsy empty string; otherwise push `leave`
with the cached lobby's id; on `ok` leave the channel, null it and the
cached lobby, and emit `lobbyLeft` with that id; on `error` emit `error`
and leave the state untouched. -/
def leaveLobby (s : ClientState) (ack : Ack Unit) : OpResult Unit :=
  match s.lobbyChannel, s.sessionToken, s.currentLobby with
  | some _, some token, some cur =>
    if token = "" then guardThrow s (ClientError.lobby "Not in a lobby")
    else
      let req := [Request.leave cur.id token]
      match ack with
      | .ok _ =>
        { state := { s with lobbyChannel := none, currentLobby := none }
          events := [Event.lobbyLeft cur.id]
          requests := req
          result := Except.ok () }
      | .error reason =>
        let e := ClientError.lobby
          ("Failed to leave lobby: " ++ reasonOr reason)
        { state := s, events := [Event.error e], requests := req
          result := Except.error e }
  | _, _, _ => guardThrow s (ClientError.lobby "Not in a lobby")

/-- `disconnect` (lines 286-301): leave both channels (the `appChannel`
field itself is never nulled, and `sessionToken` is never cleared), tear
down the socket, null the cached lobby, emit `disconnected`. -/
def disconnect (s : ClientState) : ClientState × List Event :=
  ({ s with lobbyChannel := none, currentLobby := none },
   [Event.disconnected])

/-- `onSocketError` (lines 362-365). -/
def onSocketError : List Event :=
  [Event.socketError (ClientError.connection "WebSocket connection error")]

/-- `onSocketClose` (lines 370-373). -/
def onSocketClose : List Event :=
  [Event.socketClosed]

/-! ### The spec's description of the diff-derived event sequence

The following four definitions follow the spec's words for §4.1 (one
"player joined" event per player of `next` absent from `previous`, in
next-order; one "player left" event per player of `previous` absent from
`next`, in previous-order; "status changed" on status inequality; "host
changed" when host type, address or port differ, each field compared
independently).  They are compared against `onLobbyUpdate`, the embedding
of the source. -/

/-- Spec: "a playerJoined event for each player whose id is in
`next.players` but not in `previous.players`, in the order those players
appear in `next.players`". -/
def specJoinedEvents (prev next : Lobby) : List Event :=
  (next.players.filter
      (fun p => !((prev.players.map Player.id).contains p.id))).map
    (fun p => Event.playerJoined p next)

/-- Spec: "a playerLeft event for each player whose id is in
`previous.players` but not in `next.players`, in the order they appear in
`previous.players`". -/
def specLeftEvents (prev next : Lobby) : List Event :=
  (prev.players.filter
      (fun p => !((next.players.map Player.id).contains p.id))).map
    (fun p => Event.playerLeft p next)

/-- Spec: "statusChanged if and only if `next.status` differs from
`previous.status`". -/
def specStatusEvents (prev next : Lobby) : List Event :=
  if next.status ≠ prev.status then [Event.statusChanged next.status next]
  else []

/-- Spec: "hostChanged if and only if at least one of host type, host
address, or host port differs, each field compared independently; the event
carries the new host descriptor". -/
def specHostEvents (prev next : Lobby) : List Event :=
  if next.host_type ≠ prev.host_type ∨ next.host_address ≠ prev.host_address ∨
      next.host_port ≠ prev.host_port then
    [Event.hostChanged ⟨next.host_type, next.host_address, next.host_port⟩ next]
  else []

/-- Spec: the full derived sequence — joined (next-order), left
(previous-order), status change, host change, then exactly one generic
update. -/
def specEventSequence (prev next : Lobby) : List Event :=
  specJoinedEvents prev next ++ specLeftEvents prev next ++
    specStatusEvents prev next ++ specHostEvents prev next ++
    [Event.lobbyUpdate next]

/-- Recognises a `hostChanged` event. -/
def Event.isHostChanged : Event → Bool
  | .hostChanged _ _ => true
  | _ => false

/-- Forget the debug flag: two states are observationally the same when they
agree on everything except `debugEnabled`. -/
def eraseDebug (s : ClientState) : ClientState :=
  { s with debugEnabled := false }

/-- Everything an external observer sees of one operation: the state up to
the debug flag, the emitted events, the issued requests and the settled
result. -/
def OpResult.obs {α : Type} (r : OpResult α) :
    ClientState × List Event × List Request × Except ClientError α :=
  (eraseDebug r.state, r.events, r.requests, r.result)

/-! ### Concrete sample values (used to instantiate the theorems) -/

/-- A sample player. -/
def samplePlayerA : Player := { id := 1, slug := "alice", joined_at := "t1" }

/-- A sample player. -/
def samplePlayerB : Player := { id := 2, slug := "bob", joined_at := "t2" }

/-- A sample player. -/
def samplePlayerC : Player := { id := 3, slug := "carol", joined_at := "t3" }

/-- A sample lobby snapshot with players A and B and no host info. -/
def samplePrev : Lobby :=
  { id := 10, name := "room", status := LobbyStatus.open_, max_players := 4
    host_type := none, host_address := none, host_port := none
    metadata := [], players := [samplePlayerA, samplePlayerB]
    created_at := "t0" }

/-- A successor snapshot of `samplePrev`: B stayed, A left, C joined, the
status moved to `full` and a p2p host appeared. -/
def sampleNext : Lobby :=
  { samplePrev with
    status := LobbyStatus.full
    players := [samplePlayerB, samplePlayerC]
    host_type := some HostType.p2p
    host_address := some "1.2.3.4"
    host_port := some 7000 }

/-- A connected-and-joined client state caching `samplePrev`. -/
def sampleStatePrev : ClientState :=
  { appChannel := some ("alice", "127.0.0.1"), lobbyChannel := some 10
    sessionToken := some "tok", debugEnabled := false
    currentLobby := some samplePrev }

/-- The state of a freshly constructed client (no connect yet). -/
def freshState : ClientState :=
  initialState { apiToken := none, debug := none }

/-- A sample host info payload. -/
def sampleHostInfo : HostInfo :=
  { type := HostType.p2p, address := "1.2.3.4", port := 7000 }

/-- Sample connect options. -/
def sampleConnectOptions : ConnectOptions :=
  { playerSlug := "alice", ipAddress := "127.0.0.1" }

/-- A sample matchmaking configuration. -/
def sampleConfig : MatchmakingConfig :=
  { id := 1, name := "duel", max_players := 2
    lobby_type := LobbyType.auto_match }

/-- Sample successful connect acknowledgement payload. -/
def sampleConnectResponse : ConnectResponse :=
  { active_configs := [sampleConfig], session_token := "tok" }

/-- The lobby returned by the find acknowledgement in the C7 scenario. -/
def sampleFound : Lobby := { samplePrev with id := 11 }

/-- The lobby returned by the join acknowledgement in the C7 scenario: the
server is free to send a different lobby than the one that was found. -/
def sampleJoined : Lobby := { samplePrev with id := 12 }

/-- The joined sample state but with a (falsy) empty session token: the
server handed back `""` as `session_token`.  The `!this.sessionToken`
guards treat this state like a disconnected one. -/
def sampleStateEmptyTok : ClientState :=
  { sampleStatePrev with sessionToken := some "" }

/-- A `forEach` that appends an event whenever the guard fails is the same
as filtering on the negated guard and mapping. -/
theorem foldl_cond_append {α β : Type} (f : α → Bool) (g : α → β) :
    ∀ (l : List α) (init : List β),
      l.foldl (fun acc p => if f p then acc else acc ++ [g p]) init
        = init ++ (l.filter (fun p => !f p)).map g := by
  intro l
  induction l with
  | nil => intro init; simp
  | cons p l ih =>
    intro init
    by_cases h : f p
    · simp [List.foldl_cons, h, ih]
    · simp [List.foldl_cons, h, ih]

/-- The source diff handler emits exactly the spec's sequence whenever a
previous snapshot is cached. -/
theorem onLobbyUpdate_events (s : ClientState) (prev next : Lobby)
    (h : s.currentLobby = some prev) :
    (onLobbyUpdate s next).2 = specEventSequence prev next := by
  simp only [onLobbyUpdate, h]
  rw [foldl_cond_append, foldl_cond_append, List.nil_append]
  simp only [specEventSequence, specJoinedEvents, specLeftEvents,
    specStatusEvents, specHostEvents]
  split_ifs with h1 h2 h3 <;> first
    | (exfalso; tauto)
    | simp [List.append_assoc]

/-- The diff handler always replaces the cached snapshot wholesale. -/
theorem onLobbyUpdate_state (s : ClientState) (next : Lobby) :
    (onLobbyUpdate s next).1 = { s with currentLobby := some next } := by
  simp [onLobbyUpdate]

/-- A joined-player event in the spec sequence can only come from the
joined segment: its player is in `next.players` and its id is absent from
`previous.players`. -/
theorem of_playerJoined_mem_seq (prev next : Lobby) (p : Player)
    (h : Event.playerJoined p next ∈ specEventSequence prev next) :
    p ∈ next.players ∧
      ((prev.players.map Player.id).contains p.id) = false := by
  simp only [specEventSequence, List.mem_append] at h
  rcases h with ((((h | h) | h) | h) | h)
  · simp only [specJoinedEvents, List.mem_map, List.mem_filter] at h
    rcases h with ⟨a, ⟨hmem, hfilt⟩, heq⟩
    rcases Event.playerJoined.inj heq with ⟨rfl, -⟩
    exact ⟨hmem, by simpa using hfilt⟩
  · simp only [specLeftEvents, List.mem_map] at h
    rcases h with ⟨a, -, heq⟩
    exact absurd heq (by simp)
  · simp only [specStatusEvents] at h
    split at h <;> simp at h
  · simp only [specHostEvents] at h
    split at h <;> simp at h
  · simp at h

/-- A left-player event in the spec sequence can only come from the left
segment: its player is in `previous.players` and its id is absent from
`next.players`. -/
theorem of_playerLeft_mem_seq (prev next : Lobby) (q : Player)
    (h : Event.playerLeft q next ∈ specEventSequence prev next) :
    q ∈ prev.players ∧
      ((next.players.map Player.id).contains q.id) = false := by
  simp only [specEventSequence, List.mem_append] at h
  rcases h with ((((h | h) | h) | h) | h)
  · simp only [specJoinedEvents, List.mem_map] at h
    rcases h with ⟨a, -, heq⟩
    exact absurd heq (by simp)
  · simp only [specLeftEvents, List.mem_map, List.mem_filter] at h
    rcases h with ⟨a, ⟨hmem, hfilt⟩, heq⟩
    rcases Event.playerLeft.inj heq with ⟨rfl, -⟩
    exact ⟨hmem, by simpa using hfilt⟩
  · simp only [specStatusEvents] at h
    split at h <;> simp at h
  · simp only [specHostEvents] at h
    split at h <;> simp at h
  · simp at h

/-- Filtering the spec sequence for `hostChanged` keeps exactly the host
segment. -/
theorem filter_isHostChanged_seq (prev next : Lobby) :
    (specEventSequence prev next).filter Event.isHostChanged =
      specHostEvents prev next := by
  simp only [specEventSequence, List.filter_append]
  have hj : (specJoinedEvents prev next).filter Event.isHostChanged = [] := by
    simp [specJoinedEvents, List.filter_map, Function.comp_def,
      Event.isHostChanged]
  have hl : (specLeftEvents prev next).filter Event.isHostChanged = [] := by
    simp [specLeftEvents, List.filter_map, Function.comp_def,
      Event.isHostChanged]
  have hs : (specStatusEvents prev next).filter Event.isHostChanged = [] := by
    simp only [specStatusEvents]
    split <;> simp [Event.isHostChanged]
  have hh : (specHostEvents prev next).filter Event.isHostChanged =
      specHostEvents prev next := by
    simp only [specHostEvents]
    split <;> simp [Event.isHostChanged]
  rw [hj, hl, hs, hh]
  simp [Event.isHostChanged]

/-- C1: with a previous snapshot cached, one call to the lobby-update
handler emits exactly: a `playerJoined` per player of `next.players` whose
id is absent from `previous.players` (in next-order), then a `playerLeft`
per player of `previous.players` whose id is absent from `next.players`
(in previous-order), then `statusChanged` iff the statuses differ, then
`hostChanged` iff a host field differs, then exactly one `lobbyUpdate`
carrying `next`; the cache becomes `next`; the sequence is the same for any
two states caching the same previous snapshot; and no player id occurs in
both a joined and a left event of the call. -/
theorem C1_diff_event_sequence (s s' : ClientState) (prev next : Lobby)
    (h : s.currentLobby = some prev) (h' : s'.currentLobby = some prev) :
    (onLobbyUpdate s next).2 = specEventSequence prev next ∧
    (onLobbyUpdate s next).1.currentLobby = some next ∧
    (onLobbyUpdate s next).2 = (onLobbyUpdate s' next).2 ∧
    (∀ p q : Player,
      Event.playerJoined p next ∈ (onLobbyUpdate s next).2 →
      Event.playerLeft q next ∈ (onLobbyUpdate s next).2 → p.id ≠ q.id) := by
  have e1 := onLobbyUpdate_events s prev next h
  have e2 := onLobbyUpdate_events s' prev next h'
  refine ⟨e1, ?_, e1.trans e2.symm, ?_⟩
  · rw [onLobbyUpdate_state]
  · intro p q hpj hql hpq
    rw [e1] at hpj hql
    obtain ⟨-, hpc⟩ := of_playerJoined_mem_seq prev next p hpj
    obtain ⟨hqm, -⟩ := of_playerLeft_mem_seq prev next q hql
    have hmem : (prev.players.map Player.id).contains p.id = true := by
      exact List.elem_iff.mpr (by
        rw [hpq]
        exact List.mem_map_of_mem Player.id hqm)
    rw [hmem] at hpc
    exact Bool.noConfusion hpc

/-- Witness for C1 at the sample snapshots: players roster `[A,B] → [B,C]`
with a status and a host change. -/
theorem C1_diff_event_sequence_witness :
    sampleStatePrev.currentLobby = some samplePrev ∧
    ((onLobbyUpdate sampleStatePrev sampleNext).2 =
        specEventSequence samplePrev sampleNext ∧
      (onLobbyUpdate sampleStatePrev sampleNext).1.currentLobby =
        some sampleNext ∧
      (onLobbyUpdate sampleStatePrev sampleNext).2 =
        (onLobbyUpdate sampleStatePrev sampleNext).2 ∧
      (∀ p q : Player,
        Event.playerJoined p sampleNext ∈
          (onLobbyUpdate sampleStatePrev sampleNext).2 →
        Event.playerLeft q sampleNext ∈
          (onLobbyUpdate sampleStatePrev sampleNext).2 → p.id ≠ q.id)) :=
  ⟨rfl, C1_diff_event_sequence sampleStatePrev sampleStatePrev samplePrev
    sampleNext rfl rfl⟩

/-- C2: with no cached previous snapshot, one call to the lobby-update
handler emits exactly one `lobbyUpdate` carrying `next` (so no
`playerJoined`, `playerLeft`, `statusChanged` or `hostChanged` events) and
the cache becomes `next`. -/
theorem C2_first_snapshot (s : ClientState) (next : Lobby)
    (h : s.currentLobby = none) :
    (onLobbyUpdate s next).2 = [Event.lobbyUpdate next] ∧
    (onLobbyUpdate s next).1.currentLobby = some next := by
  constructor
  · simp [onLobbyUpdate, h]
  · rw [onLobbyUpdate_state]

/-- Witness for C2 on a freshly constructed client. -/
theorem C2_first_snapshot_witness :
    freshState.currentLobby = none ∧
    ((onLobbyUpdate freshState sampleNext).2 = [Event.lobbyUpdate sampleNext] ∧
      (onLobbyUpdate freshState sampleNext).1.currentLobby =
        some sampleNext) :=
  ⟨rfl, C2_first_snapshot freshState sampleNext rfl⟩

/-- C5: with a previous snapshot cached, the lobby-update handler emits a
`hostChanged` event — exactly one — iff host type, host address or host
port differ (each field compared independently on `Option` values, so an
absent field differs from any present one), and the event carries the
descriptor built from `next`'s host fields together with `next` itself. -/
theorem C5_host_change_condition (s : ClientState) (prev next : Lobby)
    (h : s.currentLobby = some prev) :
    ((onLobbyUpdate s next).2.filter Event.isHostChanged) =
      (if next.host_type ≠ prev.host_type ∨
          next.host_address ≠ prev.host_address ∨
          next.host_port ≠ prev.host_port then
        [Event.hostChanged
          ⟨next.host_type, next.host_address, next.host_port⟩ next]
      else []) := by
  rw [onLobbyUpdate_events s prev next h, filter_isHostChanged_seq]
  rfl

/-- Witness for C5 at the sample snapshots (a host appears where there was
none). -/
theorem C5_host_change_condition_witness :
    sampleStatePrev.currentLobby = some samplePrev ∧
    ((onLobbyUpdate sampleStatePrev sampleNext).2.filter
        Event.isHostChanged) =
      (if sampleNext.host_type ≠ samplePrev.host_type ∨
          sampleNext.host_address ≠ samplePrev.host_address ∨
          sampleNext.host_port ≠ samplePrev.host_port then
        [Event.hostChanged
          ⟨sampleNext.host_type, sampleNext.host_address,
            sampleNext.host_port⟩ sampleNext]
      else []) :=
  ⟨rfl, C5_host_change_condition sampleStatePrev samplePrev sampleNext rfl⟩

/-- C3 counterexample: on a freshly constructed client (no session token,
no lobby channel) both lobby-scoped operations reject with the
`LobbyError "Not in a lobby"` — a lobby-level error, not the
connection-level error the claim states. -/
theorem C3_counterexample :
    (setHostInfo freshState sampleHostInfo (Ack.ok ())).result =
      Except.error (ClientError.lobby "Not in a lobby") ∧
    (leaveLobby freshState (Ack.ok ())).result =
      Except.error (ClientError.lobby "Not in a lobby") ∧
    ClientError.isConnectionError (ClientError.lobby "Not in a lobby") =
      false ∧
    ClientError.isLobbyError (ClientError.lobby "Not in a lobby") = true :=
  ⟨rfl, rfl, rfl, rfl⟩

/-- C3 (amended): a lobby-scoped operation on a client with no prior
successful connect (no session token, no lobby channel) fails immediately
and synchronously with the lobby-level `LobbyError "Not in a lobby"`,
issues no network request, performs no state change and emits no event. -/
theorem C3_guard_fails_without_connect (s : ClientState) (info : HostInfo)
    (ackH ackL : Ack Unit)
    (hlc : s.lobbyChannel = none) (htok : s.sessionToken = none) :
    (setHostInfo s info ackH).result =
      Except.error (ClientError.lobby "Not in a lobby") ∧
    (setHostInfo s info ackH).state = s ∧
    (setHostInfo s info ackH).requests = [] ∧
    (setHostInfo s info ackH).events = [] ∧
    (leaveLobby s ackL).result =
      Except.error (ClientError.lobby "Not in a lobby") ∧
    (leaveLobby s ackL).state = s ∧
    (leaveLobby s ackL).requests = [] ∧
    (leaveLobby s ackL).events = [] := by
  refine ⟨?_, ?_, ?_, ?_, ?_, ?_, ?_, ?_⟩ <;>
    simp [setHostInfo, leaveLobby, guardThrow, hlc, htok]

/-- Witness for the amended C3 on a freshly constructed client. -/
theorem C3_guard_fails_without_connect_witness :
    freshState.lobbyChannel = none ∧ freshState.sessionToken = none ∧
    ((setHostInfo freshState sampleHostInfo (Ack.ok ())).result =
        Except.error (ClientError.lobby "Not in a lobby") ∧
      (setHostInfo freshState sampleHostInfo (Ack.ok ())).state =
        freshState ∧
      (setHostInfo freshState sampleHostInfo (Ack.ok ())).requests = [] ∧
      (setHostInfo freshState sampleHostInfo (Ack.ok ())).events = [] ∧
      (leaveLobby freshState (Ack.ok ())).result =
        Except.error (ClientError.lobby "Not in a lobby") ∧
      (leaveLobby freshState (Ack.ok ())).state = freshState ∧
      (leaveLobby freshState (Ack.ok ())).requests = [] ∧
      (leaveLobby freshState (Ack.ok ())).events = []) :=
  ⟨rfl, rfl, C3_guard_fails_without_connect freshState sampleHostInfo
    (Ack.ok ()) (Ack.ok ()) rfl rfl⟩

/-- C4 counterexample: `setHostInfo` on a fresh client is a failing public
async operation (it rejects with a typed error) yet emits no `error`
event — contradicting "both fire" for every failure cause. -/
theorem C4_counterexample :
    (setHostInfo freshState sampleHostInfo (Ack.ok ())).result =
      Except.error (ClientError.lobby "Not in a lobby") ∧
    (setHostInfo freshState sampleHostInfo (Ack.ok ())).events = [] :=
  ⟨rfl, rfl⟩

/-- C4 (amended): failures arising from the request/acknowledgement
exchange (on a connected client whose token is truthy) reject with a typed
`MatchmakeError` and emit one `error` event carrying that same object;
contract-violation failures (the guards of `joinLobby`, `setHostInfo`,
`leaveLobby` — hit both with no token at all and with the falsy empty
token) reject with a typed `MatchmakeError` but emit no `error` event; and
`findLobby` before any connect rejects with an untyped runtime error which
is nonetheless emitted as an `error` event. -/
theorem C4_error_propagation (s s0 sE : ClientState)
    (hApp : s.appChannel.isSome = true)
    (hTok : tokenTruthy s.sessionToken = true)
    (hLc : s.lobbyChannel.isSome = true)
    (hCur : s.currentLobby.isSome = true)
    (h0App : s0.appChannel = none) (h0Tok : s0.sessionToken = none)
    (h0Lc : s0.lobbyChannel = none)
    (hETok : sE.sessionToken = some "")
    (hELc : sE.lobbyChannel.isSome = true)
    (hECur : sE.currentLobby.isSome = true)
    (o : ConnectOptions) (r : Option String) (cfgId : Nat) (lob : Lobby)
    (info : HostInfo) :
    (∃ e, ClientError.isMatchmakeError e = true ∧
      (connect s o (Ack.error r)).result = Except.error e ∧
      (connect s o (Ack.error r)).events = [Event.error e]) ∧
    (∃ e, ClientError.isMatchmakeError e = true ∧
      (findLobby s cfgId (Ack.error r)).result = Except.error e ∧
      (findLobby s cfgId (Ack.error r)).events = [Event.error e]) ∧
    (∃ e, ClientError.isMatchmakeError e = true ∧
      (joinLobby s lob (Ack.error r)).result = Except.error e ∧
      (joinLobby s lob (Ack.error r)).events = [Event.error e]) ∧
    (∃ e, ClientError.isMatchmakeError e = true ∧
      (setHostInfo s info (Ack.error r)).result = Except.error e ∧
      (setHostInfo s info (Ack.error r)).events = [Event.error e]) ∧
    (∃ e, ClientError.isMatchmakeError e = true ∧
      (leaveLobby s (Ack.error r)).result = Except.error e ∧
      (leaveLobby s (Ack.error r)).events = [Event.error e]) ∧
    (∃ e, ClientError.isMatchmakeError e = true ∧
      (joinLobby s0 lob (Ack.error r)).result = Except.error e ∧
      (joinLobby s0 lob (Ack.error r)).events = []) ∧
    (∃ e, ClientError.isMatchmakeError e = true ∧
      (setHostInfo s0 info (Ack.error r)).result = Except.error e ∧
      (setHostInfo s0 info (Ack.error r)).events = []) ∧
    (∃ e, ClientError.isMatchmakeError e = true ∧
      (leaveLobby s0 (Ack.error r)).result = Except.error e ∧
      (leaveLobby s0 (Ack.error r)).events = []) ∧
    (∃ e, ClientError.isMatchmakeError e = true ∧
      (joinLobby sE lob (Ack.error r)).result = Except.error e ∧
      (joinLobby sE lob (Ack.error r)).events = []) ∧
    (∃ e, ClientError.isMatchmakeError e = true ∧
      (setHostInfo sE info (Ack.error r)).result = Except.error e ∧
      (setHostInfo sE info (Ack.error r)).events = []) ∧
    (∃ e, ClientError.isMatchmakeError e = true ∧
      (leaveLobby sE (Ack.error r)).result = Except.error e ∧
      (leaveLobby sE (Ack.error r)).events = []) ∧
    (∃ e, ClientError.isMatchmakeError e = false ∧
      (findLobby s0 cfgId (Ack.error r)).result = Except.error e ∧
      (findLobby s0 cfgId (Ack.error r)).events = [Event.error e]) := by
  obtain ⟨ap, hap⟩ := Option.isSome_iff_exists.mp hApp
  obtain ⟨lc, hlc⟩ := Option.isSome_iff_exists.mp hLc
  obtain ⟨cu, hcu⟩ := Option.isSome_iff_exists.mp hCur
  obtain ⟨elc, helc⟩ := Option.isSome_iff_exists.mp hELc
  obtain ⟨ecu, hecu⟩ := Option.isSome_iff_exists.mp hECur
  obtain ⟨tk, htk, htkne⟩ : ∃ tk, s.sessionToken = some tk ∧ ¬tk = "" := by
    cases hx : s.sessionToken with
    | none => rw [hx] at hTok; simp [tokenTruthy] at hTok
    | some t =>
      rw [hx] at hTok
      exact ⟨t, rfl, by simpa [tokenTruthy] using hTok⟩
  refine ⟨⟨ClientError.connection
      ("Failed to join app channel: " ++ reasonOr r), rfl, rfl, rfl⟩,
    ⟨ClientError.lobby ("Failed to find lobby: " ++ reasonOr r),
      rfl, ?_, ?_⟩,
    ⟨ClientError.lobby ("Failed to join lobby: " ++ reasonOr r),
      rfl, ?_, ?_⟩,
    ⟨ClientError.lobby ("Failed to set host info: " ++ reasonOr r),
      rfl, ?_, ?_⟩,
    ⟨ClientError.lobby ("Failed to leave lobby: " ++ reasonOr r),
      rfl, ?_, ?_⟩,
    ⟨ClientError.connection "Not connected", rfl, ?_, ?_⟩,
    ⟨ClientError.lobby "Not in a lobby", rfl, ?_, ?_⟩,
    ⟨ClientError.lobby "Not in a lobby", rfl, ?_, ?_⟩,
    ⟨ClientError.connection "Not connected", rfl, ?_, ?_⟩,
    ⟨ClientError.connection "Not connected", rfl, ?_, ?_⟩,
    ⟨ClientError.lobby "Not in a lobby", rfl, ?_, ?_⟩,
    ⟨ClientError.typeError
      "Cannot read properties of undefined (reading 'push')",
      rfl, ?_, ?_⟩⟩ <;>
  simp [findLobby, joinLobby, setHostInfo, leaveLobby, guardThrow,
    hap, htk, htkne, hlc, hcu, h0App, h0Tok, h0Lc, hETok, helc, hecu]

/-- Witness for the amended C4: the connected state `sampleStatePrev` and
the fresh state. -/
theorem C4_error_propagation_witness :
    sampleStatePrev.appChannel.isSome = true ∧
    tokenTruthy sampleStatePrev.sessionToken = true ∧
    sampleStatePrev.lobbyChannel.isSome = true ∧
    sampleStatePrev.currentLobby.isSome = true ∧
    freshState.appChannel = none ∧ freshState.sessionToken = none ∧
    freshState.lobbyChannel = none ∧
    sampleStateEmptyTok.sessionToken = some "" ∧
    sampleStateEmptyTok.lobbyChannel.isSome = true ∧
    sampleStateEmptyTok.currentLobby.isSome = true ∧
    ((∃ e, ClientError.isMatchmakeError e = true ∧
      (connect sampleStatePrev sampleConnectOptions
        (Ack.error (some "boom"))).result = Except.error e ∧
      (connect sampleStatePrev sampleConnectOptions
        (Ack.error (some "boom"))).events = [Event.error e]) ∧
    (∃ e, ClientError.isMatchmakeError e = true ∧
      (findLobby sampleStatePrev 1 (Ack.error (some "boom"))).result =
        Except.error e ∧
      (findLobby sampleStatePrev 1 (Ack.error (some "boom"))).events =
        [Event.error e]) ∧
    (∃ e, ClientError.isMatchmakeError e = true ∧
      (joinLobby sampleStatePrev sampleFound
        (Ack.error (some "boom"))).result = Except.error e ∧
      (joinLobby sampleStatePrev sampleFound
        (Ack.error (some "boom"))).events = [Event.error e]) ∧
    (∃ e, ClientError.isMatchmakeError e = true ∧
      (setHostInfo sampleStatePrev sampleHostInfo
        (Ack.error (some "boom"))).result = Except.error e ∧
      (setHostInfo sampleStatePrev sampleHostInfo
        (Ack.error (some "boom"))).events = [Event.error e]) ∧
    (∃ e, ClientError.isMatchmakeError e = true ∧
      (leaveLobby sampleStatePrev (Ack.error (some "boom"))).result =
        Except.error e ∧
      (leaveLobby sampleStatePrev (Ack.error (some "boom"))).events =
        [Event.error e]) ∧
    (∃ e, ClientError.isMatchmakeError e = true ∧
      (joinLobby freshState sampleFound
        (Ack.error (some "boom"))).result = Except.error e ∧
      (joinLobby freshState sampleFound
        (Ack.error (some "boom"))).events = []) ∧
    (∃ e, ClientError.isMatchmakeError e = true ∧
      (setHostInfo freshState sampleHostInfo
        (Ack.error (some "boom"))).result = Except.error e ∧
      (setHostInfo freshState sampleHostInfo
        (Ack.error (some "boom"))).events = []) ∧
    (∃ e, ClientError.isMatchmakeError e = true ∧
      (leaveLobby freshState (Ack.error (some "boom"))).result =
        Except.error e ∧
      (leaveLobby freshState (Ack.error (some "boom"))).events = []) ∧
    (∃ e, ClientError.isMatchmakeError e = true ∧
      (joinLobby sampleStateEmptyTok sampleFound
        (Ack.error (some "boom"))).result = Except.error e ∧
      (joinLobby sampleStateEmptyTok sampleFound
        (Ack.error (some "boom"))).events = []) ∧
    (∃ e, ClientError.isMatchmakeError e = true ∧
      (setHostInfo sampleStateEmptyTok sampleHostInfo
        (Ack.error (some "boom"))).result = Except.error e ∧
      (setHostInfo sampleStateEmptyTok sampleHostInfo
        (Ack.error (some "boom"))).events = []) ∧
    (∃ e, ClientError.isMatchmakeError e = true ∧
      (leaveLobby sampleStateEmptyTok (Ack.error (some "boom"))).result =
        Except.error e ∧
      (leaveLobby sampleStateEmptyTok (Ack.error (some "boom"))).events =
        []) ∧
    (∃ e, ClientError.isMatchmakeError e = false ∧
      (findLobby freshState 1 (Ack.error (some "boom"))).result =
        Except.error e ∧
      (findLobby freshState 1 (Ack.error (some "boom"))).events =
        [Event.error e])) :=
  ⟨by decide, by decide, rfl, rfl, rfl, rfl, rfl, rfl, rfl, rfl,
    C4_error_propagation sampleStatePrev freshState sampleStateEmptyTok
      (by decide) (by decide) rfl rfl rfl rfl rfl rfl rfl rfl
      sampleConnectOptions (some "boom") 1 sampleFound sampleHostInfo⟩

/-- C6 counterexample: `disconnect` does not clear the session token — the
field assignment is simply missing from the source — so after disconnect
the token is not null as the claim states. -/
theorem C6_counterexample :
    sampleStatePrev.sessionToken = some "tok" ∧
    (disconnect sampleStatePrev).1.sessionToken = some "tok" ∧
    some "tok" ≠ (none : Option String) :=
  ⟨rfl, rfl, fun h => Option.noConfusion h⟩

/-- C6 (amended): the session token is set by a successful connect and is
never cleared by `disconnect` (it retains its prior value); the cached
lobby snapshot is set by a successful `joinLobby`, replaced wholesale by
each push update, and cleared by a successful `leaveLobby` and by
`disconnect`.  Hence after `disconnect` the cached lobby is null but the
session token keeps its value. -/
theorem C6_lifecycle (s : ClientState) (o : ConnectOptions)
    (resp : ConnectResponse) (lob : Lobby) (jr : LobbyResponse)
    (next : Lobby) (tok : String) (lcId : Nat) (cur : Lobby)
    (htok : s.sessionToken = some tok) (htokne : tok ≠ "")
    (hlc : s.lobbyChannel = some lcId)
    (hcur : s.currentLobby = some cur) :
    (connect s o (Ack.ok resp)).state.sessionToken =
      some resp.session_token ∧
    (joinLobby s lob (Ack.ok jr)).state.currentLobby = some jr.lobby ∧
    (onLobbyUpdate s next).1.currentLobby = some next ∧
    (leaveLobby s (Ack.ok ())).state.currentLobby = none ∧
    (leaveLobby s (Ack.ok ())).state.lobbyChannel = none ∧
    (leaveLobby s (Ack.ok ())).state.sessionToken = some tok ∧
    (disconnect s).1.currentLobby = none ∧
    (disconnect s).1.sessionToken = some tok := by
  refine ⟨rfl, ?_, ?_, ?_, ?_, ?_, ?_, ?_⟩ <;>
    simp [joinLobby, onLobbyUpdate, leaveLobby, disconnect,
      htok, htokne, hlc, hcur]

/-- Witness for the amended C6 on the joined sample state. -/
theorem C6_lifecycle_witness :
    sampleStatePrev.sessionToken = some "tok" ∧
    "tok" ≠ "" ∧
    sampleStatePrev.lobbyChannel = some 10 ∧
    sampleStatePrev.currentLobby = some samplePrev ∧
    ((connect sampleStatePrev sampleConnectOptions
        (Ack.ok sampleConnectResponse)).state.sessionToken =
      some sampleConnectResponse.session_token ∧
    (joinLobby sampleStatePrev sampleFound
        (Ack.ok ⟨sampleJoined⟩)).state.currentLobby =
      some (LobbyResponse.mk sampleJoined).lobby ∧
    (onLobbyUpdate sampleStatePrev sampleNext).1.currentLobby =
      some sampleNext ∧
    (leaveLobby sampleStatePrev (Ack.ok ())).state.currentLobby = none ∧
    (leaveLobby sampleStatePrev (Ack.ok ())).state.lobbyChannel = none ∧
    (leaveLobby sampleStatePrev (Ack.ok ())).state.sessionToken =
      some "tok" ∧
    (disconnect sampleStatePrev).1.currentLobby = none ∧
    (disconnect sampleStatePrev).1.sessionToken = some "tok") :=
  ⟨rfl, by decide, rfl, rfl,
    C6_lifecycle sampleStatePrev sampleConnectOptions sampleConnectResponse
      sampleFound ⟨sampleJoined⟩ sampleNext "tok" 10 samplePrev rfl
      (by decide) rfl rfl⟩

/-- C7 counterexample: a fully successful find-then-join where the join
acknowledgement returns a lobby with a different identifier (12) than the
found one (11): `lobbyFound` and `lobbyJoined` then carry different
identifiers, refuting the claim for arbitrary server payloads. -/
theorem C7_counterexample :
    (findAndJoinLobby sampleStatePrev 1 (Ack.ok ⟨sampleFound⟩)
      (Ack.ok ⟨sampleJoined⟩)).result = Except.ok sampleJoined ∧
    (findAndJoinLobby sampleStatePrev 1 (Ack.ok ⟨sampleFound⟩)
      (Ack.ok ⟨sampleJoined⟩)).events =
      [Event.lobbyFound sampleFound, Event.lobbyJoined sampleJoined] ∧
    sampleFound.id = 11 ∧ sampleJoined.id = 12 ∧
    sampleFound.id ≠ sampleJoined.id :=
  ⟨rfl, rfl, rfl, rfl, by decide⟩

/-- C7 (amended): a successful `findAndJoinLobby` emits `lobbyFound`
carrying the find acknowledgement's lobby and then `lobbyJoined` carrying
the join acknowledgement's lobby, which is also the value returned to the
caller; the join request targets the channel named by the found lobby's
identifier, but the identifier carried by `lobbyJoined` is whatever the
server echoed, so the two events' identifiers coincide only when the join
acknowledgement returns the found lobby's identifier. -/
theorem C7_find_then_join (s : ClientState) (cfgId : Nat) (lf lj : Lobby)
    (tok : String) (hap : s.appChannel.isSome = true)
    (htok : s.sessionToken = some tok) (htokne : tok ≠ "") :
    (findAndJoinLobby s cfgId (Ack.ok ⟨lf⟩) (Ack.ok ⟨lj⟩)).events =
      [Event.lobbyFound lf, Event.lobbyJoined lj] ∧
    (findAndJoinLobby s cfgId (Ack.ok ⟨lf⟩) (Ack.ok ⟨lj⟩)).result =
      Except.ok lj ∧
    (findAndJoinLobby s cfgId (Ack.ok ⟨lf⟩) (Ack.ok ⟨lj⟩)).requests =
      [Request.findLobbyPush cfgId, Request.joinLobby lf.id tok] := by
  obtain ⟨ap, hap'⟩ := Option.isSome_iff_exists.mp hap
  refine ⟨?_, ?_, ?_⟩ <;>
    simp [findAndJoinLobby, findLobby, joinLobby, hap', htok, htokne]

/-- Witness for the amended C7 at the sample scenario. -/
theorem C7_find_then_join_witness :
    sampleStatePrev.appChannel.isSome = true ∧
    sampleStatePrev.sessionToken = some "tok" ∧
    "tok" ≠ "" ∧
    ((findAndJoinLobby sampleStatePrev 1 (Ack.ok ⟨sampleFound⟩)
        (Ack.ok ⟨sampleJoined⟩)).events =
      [Event.lobbyFound sampleFound, Event.lobbyJoined sampleJoined] ∧
    (findAndJoinLobby sampleStatePrev 1 (Ack.ok ⟨sampleFound⟩)
        (Ack.ok ⟨sampleJoined⟩)).result = Except.ok sampleJoined ∧
    (findAndJoinLobby sampleStatePrev 1 (Ack.ok ⟨sampleFound⟩)
        (Ack.ok ⟨sampleJoined⟩)).requests =
      [Request.findLobbyPush 1, Request.joinLobby sampleFound.id "tok"]) :=
  ⟨rfl, rfl, by decide,
    C7_find_then_join sampleStatePrev 1 sampleFound sampleJoined "tok"
      rfl rfl (by decide)⟩

/-- C8: constructing the client without an `apiToken` option succeeds and
authenticates with the hard-coded default token, both in the Node variant
(`x-authorization: Bearer <token>` header) and in the browser variant
(`token` query parameter). -/
theorem C8_default_api_token (dbg : Option Bool) :
    resolveApiToken none = defaultApiToken ∧
    connectionAuth false { apiToken := none, debug := dbg } =
      TransportAuth.header ("Bearer " ++ defaultApiToken) ∧
    connectionAuth true { apiToken := none, debug := dbg } =
      TransportAuth.queryParam defaultApiToken :=
  ⟨rfl, rfl, rfl⟩

/-- C9 counterexample: `findLobby` on a client that never connected rejects
with the untyped `TypeError`, but — contrary to the claim — it does emit an
`error` event: the `TypeError` thrown inside the promise executor rejects
the awaited promise, so the `catch` block runs and emits it. -/
theorem C9_counterexample :
    freshState.appChannel = none ∧
    (findLobby freshState 1 (Ack.ok ⟨sampleFound⟩)).events =
      [Event.error (ClientError.typeError
        "Cannot read properties of undefined (reading 'push')")] ∧
    (findLobby freshState 1 (Ack.ok ⟨sampleFound⟩)).events ≠ [] :=
  ⟨rfl, rfl, fun h => List.noConfusion h⟩

/-- C9 (amended): `findLobby` before any successful connect rejects with an
untyped runtime error — not one of the typed `MatchmakeError` kinds —
issues no network request and changes no state, and emits exactly one
`error` event carrying that untyped error. -/
theorem C9_findLobby_without_connect (s : ClientState) (cfgId : Nat)
    (ack : Ack LobbyResponse) (h : s.appChannel = none) :
    ∃ e, ClientError.isMatchmakeError e = false ∧
      (findLobby s cfgId ack).result = Except.error e ∧
      (findLobby s cfgId ack).events = [Event.error e] ∧
      (findLobby s cfgId ack).requests = [] ∧
      (findLobby s cfgId ack).state = s := by
  refine ⟨ClientError.typeError
    "Cannot read properties of undefined (reading 'push')",
    rfl, ?_, ?_, ?_, ?_⟩ <;> simp [findLobby, h]

/-- Witness for the amended C9 on a freshly constructed client. -/
theorem C9_findLobby_without_connect_witness :
    freshState.appChannel = none ∧
    (∃ e, ClientError.isMatchmakeError e = false ∧
      (findLobby freshState 1 (Ack.ok ⟨sampleFound⟩)).result =
        Except.error e ∧
      (findLobby freshState 1 (Ack.ok ⟨sampleFound⟩)).events =
        [Event.error e] ∧
      (findLobby freshState 1 (Ack.ok ⟨sampleFound⟩)).requests = [] ∧
      (findLobby freshState 1 (Ack.ok ⟨sampleFound⟩)).state = freshState) :=
  ⟨rfl, C9_findLobby_without_connect freshState 1 (Ack.ok ⟨sampleFound⟩) rfl⟩

/-- C10: the debug flag only gates console logging.  Two client states that
agree on everything except `debugEnabled` produce, for every operation and
every acknowledgement, the same events, the same requests, the same
results, and states that again agree on everything except `debugEnabled`;
the constructor's `debug` option likewise influences nothing else. -/
theorem C10_debug_noninterference (s1 s2 : ClientState)
    (h : eraseDebug s1 = eraseDebug s2)
    (o : ConnectOptions) (ca : Ack ConnectResponse) (cfgId : Nat)
    (fa ja : Ack LobbyResponse) (lob : Lobby) (info : HostInfo)
    (ha la : Ack Unit) (next : Lobby) (d : Bool) (t : Option String)
    (b : Bool) :
    (connect s1 o ca).obs = (connect s2 o ca).obs ∧
    (findLobby s1 cfgId fa).obs = (findLobby s2 cfgId fa).obs ∧
    (joinLobby s1 lob ja).obs = (joinLobby s2 lob ja).obs ∧
    (findAndJoinLobby s1 cfgId fa ja).obs =
      (findAndJoinLobby s2 cfgId fa ja).obs ∧
    (setHostInfo s1 info ha).obs = (setHostInfo s2 info ha).obs ∧
    (leaveLobby s1 la).obs = (leaveLobby s2 la).obs ∧
    eraseDebug (onLobbyUpdate s1 next).1 =
      eraseDebug (onLobbyUpdate s2 next).1 ∧
    (onLobbyUpdate s1 next).2 = (onLobbyUpdate s2 next).2 ∧
    eraseDebug (disconnect s1).1 = eraseDebug (disconnect s2).1 ∧
    (disconnect s1).2 = (disconnect s2).2 ∧
    getCurrentLobby s1 = getCurrentLobby s2 ∧
    eraseDebug (setDebug s1 d) = eraseDebug (setDebug s2 d) ∧
    eraseDebug (initialState { apiToken := t, debug := some true }) =
      eraseDebug (initialState { apiToken := t, debug := some false }) ∧
    connectionAuth b { apiToken := t, debug := some true } =
      connectionAuth b { apiToken := t, debug := some false } := by
  obtain ⟨app1, lc1, tok1, d1, cur1⟩ := s1
  obtain ⟨app2, lc2, tok2, d2, cur2⟩ := s2
  simp only [eraseDebug] at h
  injection h with h1 h2 h3 h4 h5
  subst h1; subst h2; subst h3; subst h5
  refine ⟨?_, ?_, ?_, ?_, ?_, ?_, ?_, ?_, ?_, ?_, ?_, ?_, ?_, ?_⟩
  · cases ca <;> rfl
  · cases app1 <;> cases fa <;> rfl
  · cases tok1 with
    | none => cases ja <;> rfl
    | some t =>
      by_cases ht : t = "" <;> cases ja <;>
        simp [joinLobby, OpResult.obs, eraseDebug, guardThrow, ht]
  · cases app1 with
    | none => cases fa <;> cases ja <;> rfl
    | some a =>
      cases tok1 with
      | none => cases fa <;> cases ja <;> rfl
      | some t =>
        by_cases ht : t = "" <;> cases fa <;> cases ja <;>
          simp [findAndJoinLobby, findLobby, joinLobby, OpResult.obs,
            eraseDebug, guardThrow, ht]
  · cases lc1 with
    | none => cases ha <;> rfl
    | some c =>
      cases tok1 with
      | none => cases ha <;> rfl
      | some t =>
        by_cases ht : t = "" <;> cases ha <;>
          simp [setHostInfo, OpResult.obs, eraseDebug, guardThrow, ht]
  · cases lc1 with
    | none => cases la <;> rfl
    | some c =>
      cases tok1 with
      | none => cases la <;> rfl
      | some t =>
        cases cur1 with
        | none => cases la <;> rfl
        | some cl =>
          by_cases ht : t = "" <;> cases la <;>
            simp [leaveLobby, OpResult.obs, eraseDebug, guardThrow, ht]
  · cases cur1 <;> rfl
  · cases cur1 <;> rfl
  · rfl
  · rfl
  · rfl
  · rfl
  · rfl
  · rfl

/-- Witness for C10: the joined sample state with the debug flag forced on
versus off. -/
theorem C10_debug_noninterference_witness :
    eraseDebug (setDebug sampleStatePrev true) = eraseDebug sampleStatePrev ∧
    ((connect (setDebug sampleStatePrev true) sampleConnectOptions
        (Ack.ok sampleConnectResponse)).obs =
      (connect sampleStatePrev sampleConnectOptions
        (Ack.ok sampleConnectResponse)).obs ∧
    (findLobby (setDebug sampleStatePrev true) 1
        (Ack.ok ⟨sampleFound⟩)).obs =
      (findLobby sampleStatePrev 1 (Ack.ok ⟨sampleFound⟩)).obs ∧
    (joinLobby (setDebug sampleStatePrev true) sampleFound
        (Ack.ok ⟨sampleJoined⟩)).obs =
      (joinLobby sampleStatePrev sampleFound (Ack.ok ⟨sampleJoined⟩)).obs ∧
    (findAndJoinLobby (setDebug sampleStatePrev true) 1
        (Ack.ok ⟨sampleFound⟩) (Ack.ok ⟨sampleJoined⟩)).obs =
      (findAndJoinLobby sampleStatePrev 1 (Ack.ok ⟨sampleFound⟩)
        (Ack.ok ⟨sampleJoined⟩)).obs ∧
    (setHostInfo (setDebug sampleStatePrev true) sampleHostInfo
        (Ack.ok ())).obs =
      (setHostInfo sampleStatePrev sampleHostInfo (Ack.ok ())).obs ∧
    (leaveLobby (setDebug sampleStatePrev true) (Ack.ok ())).obs =
      (leaveLobby sampleStatePrev (Ack.ok ())).obs ∧
    eraseDebug (onLobbyUpdate (setDebug sampleStatePrev true) sampleNext).1 =
      eraseDebug (onLobbyUpdate sampleStatePrev sampleNext).1 ∧
    (onLobbyUpdate (setDebug sampleStatePrev true) sampleNext).2 =
      (onLobbyUpdate sampleStatePrev sampleNext).2 ∧
    eraseDebug (disconnect (setDebug sampleStatePrev true)).1 =
      eraseDebug (disconnect sampleStatePrev).1 ∧
    (disconnect (setDebug sampleStatePrev true)).2 =
      (disconnect sampleStatePrev).2 ∧
    getCurrentLobby (setDebug sampleStatePrev true) =
      getCurrentLobby sampleStatePrev ∧
    eraseDebug (setDebug (setDebug sampleStatePrev true) false) =
      eraseDebug (setDebug sampleStatePrev false) ∧
    eraseDebug (initialState { apiToken := none, debug := some true }) =
      eraseDebug (initialState { apiToken := none, debug := some false }) ∧
    connectionAuth false { apiToken := none, debug := some true } =
      connectionAuth false { apiToken := none, debug := some false }) :=
  ⟨rfl, C10_debug_noninterference (setDebug sampleStatePrev true)
    sampleStatePrev rfl sampleConnectOptions (Ack.ok sampleConnectResponse)
    1 (Ack.ok ⟨sampleFound⟩) (Ack.ok ⟨sampleJoined⟩) sampleFound
    sampleHostInfo (Ack.ok ()) (Ack.ok ()) sampleNext false none false⟩

end Matchmake
